import Mathlib

/-
Verification of the admission-control and token-lifecycle core of
`src/index.js` (Node_JS_Advance).

The rate limiter (`rateLimiterMiddleware`, lines 49-78), the time
restriction (`timeRestrictionMiddleware`, lines 81-95), token issuance
(`generateTokens`, lines 29-33) and rotation (`/auth/refresh`,
lines 137-147) are embedded as pure Lean functions.  The module-global
`hitTracker` object is modelled as an association list in key-insertion
order; `Date.now()` instants are integers of milliseconds.
-/

set_option autoImplicit false

namespace NodeAdvance

/-- Milliseconds since the Unix epoch, as produced by `Date.now()`. -/
abbrev Millis := Int

/-- The module-global `hitTracker` object (src/index.js line 48): a map from
a customer name to the array of timestamps of its admitted hits.  A JavaScript
object with string keys is modelled as an association list with the keys in
insertion order (JavaScript enumerates string keys in insertion order, and an
object never holds the same key twice). -/
abbrev HitTable := List (String × List Millis)

/-- Reason codes of the spec for the four denial branches of the source:
`GLOBAL_BURST_EXCEEDED` is the 429 `Maximum limit exceeded (2 hits per 5 minutes)`
response, `IDENTITY_COOLDOWN` the 429 `Maximum limit exceeded (1 hit per 2 minutes)`
response, `BLACKOUT_DAY` the 403 `Please do not use this API on Monday` response and
`BLACKOUT_HOURS` the 403 `Restricted time: Please try after 3pm` response. -/
inductive Reason where
  | GLOBAL_BURST_EXCEEDED
  | IDENTITY_COOLDOWN
  | BLACKOUT_DAY
  | BLACKOUT_HOURS
  deriving DecidableEq, Repr

/-- An admission decision: `admitted` models the middleware calling `next()`,
`denied r` models an early `return res.status(...)` with the message that
corresponds to reason `r`. -/
inductive Decision where
  | admitted
  | denied (reason : Reason)
  deriving DecidableEq, Repr

/-- The retention horizon of the sweep at src/index.js line 55:
`5 * 60 * 1000` milliseconds. -/
def retentionMs : Millis := 5 * 60 * 1000

/-- The filter applied to one key's timestamp array at src/index.js line 55:
`timestamps.filter(timestamp => now - timestamp <= horizon)` (the source
instantiates `horizon` with the 5-minute retention). -/
def pruneList (now horizon : Millis) (ts : List Millis) : List Millis :=
  ts.filter (fun t => decide (now - t ≤ horizon))

/-- The cleanup loop at src/index.js lines 54-57: every key's array is filtered
to the horizon and keys whose array became empty are deleted. -/
def sweepAll (now horizon : Millis) : HitTable → HitTable
  | [] => []
  | (k, ts) :: rest =>
    if pruneList now horizon ts = [] then sweepAll now horizon rest
    else (k, pruneList now horizon ts) :: sweepAll now horizon rest

/-- The count at src/index.js line 60:
`Object.keys(hitTracker).filter(name => hitTracker[name].length >= 2).length`. -/
def burstIdentityCount (tbl : HitTable) : Nat :=
  (tbl.filter (fun p => decide (2 ≤ p.2.length))).length

/-- The hit recording at src/index.js lines 71-74: create an empty array for a
fresh key, then `push(now)`.  Pushing appends to the stored array of the one
entry with that key; a fresh key is appended at the end (JavaScript adds new
object keys at the end of the insertion order).  The lookup here is own-key
only: line 71's truthiness test on a plain object also sees properties
inherited from `Object.prototype` (keys such as `toString`), a case this
definition does not reach — `rateLimiterMiddlewareJS` below models it. -/
def recordHit (tbl : HitTable) (k : String) (t : Millis) : HitTable :=
  if (tbl.lookup k).isSome then
    tbl.map (fun p => (p.1, if p.1 == k then p.2 ++ [t] else p.2))
  else
    tbl ++ [(k, [t])]

/-- `rateLimiterMiddleware` of src/index.js lines 49-78, as a function from the
pre-state of `hitTracker`, the request's `customer_name` and `Date.now()` to
the decision and the post-state of `hitTracker`.  In order: the cleanup sweep
(lines 53-57), the global check (lines 59-63), the per-identity check
(lines 65-68, `hitTracker[customer_name] && hitTracker[customer_name].length >= 1`),
then recording the hit and admitting (lines 70-77).  The per-identity lookup
is own-key only; the source's property access on a plain object additionally
reaches `Object.prototype` for inherited keys such as `toString`, a path on
which the source can throw — that path is modelled faithfully by
`rateLimiterMiddlewareJS` below. -/
def rateLimiterMiddleware (tbl : HitTable) (customer_name : String) (now : Millis) :
    Decision × HitTable :=
  if 2 ≤ burstIdentityCount (sweepAll now retentionMs tbl) then
    (.denied .GLOBAL_BURST_EXCEEDED, sweepAll now retentionMs tbl)
  else
    match (sweepAll now retentionMs tbl).lookup customer_name with
    | some ts =>
      if 1 ≤ ts.length then
        (.denied .IDENTITY_COOLDOWN, sweepAll now retentionMs tbl)
      else
        (.admitted, recordHit (sweepAll now retentionMs tbl) customer_name now)
    | none =>
      (.admitted, recordHit (sweepAll now retentionMs tbl) customer_name now)

/-- The properties a plain JavaScript object inherits from `Object.prototype`,
as seen by the property accesses of src/index.js lines 66, 71 and 74 when
`customer_name` is not an own key of `hitTracker`: `some b` means the key is
inherited with a truthy value whose `length` property satisfies
`value.length >= 1` exactly when `b` (for the inherited methods, `length` is
the function arity: 1 for `constructor` — the `Object` function — and the
one-argument methods, 2 for the define methods, 0 for `toString`,
`toLocaleString` and `valueOf`; for `__proto__` the inherited value is the
prototype object, which has no `length`, so the comparison is false);
`none` means the access yields `undefined`. -/
def protoLengthGeOne : String → Option Bool
  | "constructor" => some true
  | "hasOwnProperty" => some true
  | "isPrototypeOf" => some true
  | "propertyIsEnumerable" => some true
  | "__defineGetter__" => some true
  | "__defineSetter__" => some true
  | "__lookupGetter__" => some true
  | "__lookupSetter__" => some true
  | "toString" => some false
  | "toLocaleString" => some false
  | "valueOf" => some false
  | "__proto__" => some false
  | _ => none

/-- Outcome of one run of the rate limiter when the prototype chain is
modelled: either a decision with the post-state of `hitTracker`, or the
TypeError thrown at src/index.js line 74 when `.push` is called on an
inherited non-array value. -/
inductive RateLimiterOutcome where
  | decision (d : Decision) (tbl : HitTable)
  | typeErrorAtPush
  deriving DecidableEq, Repr

/-- `rateLimiterMiddleware` of src/index.js lines 49-78 with the source's
full property-access semantics: an own key of `hitTracker` behaves as in
`rateLimiterMiddleware`, but when `customer_name` is not an own key the
accesses at lines 66 and 71 see the property inherited from
`Object.prototype` (per `protoLengthGeOne`).  An inherited value is truthy,
so for an inherited key with `length >= 1` line 66 denies with the cooldown
message although no hit is stored; for an inherited key with `length < 1`
line 71 skips the array creation and line 74's `push` throws a TypeError
that escapes the middleware. -/
def rateLimiterMiddlewareJS (tbl : HitTable) (customer_name : String)
    (now : Millis) : RateLimiterOutcome :=
  if 2 ≤ burstIdentityCount (sweepAll now retentionMs tbl) then
    .decision (.denied .GLOBAL_BURST_EXCEEDED) (sweepAll now retentionMs tbl)
  else
    match (sweepAll now retentionMs tbl).lookup customer_name with
    | some ts =>
      if 1 ≤ ts.length then
        .decision (.denied .IDENTITY_COOLDOWN) (sweepAll now retentionMs tbl)
      else
        .decision .admitted
          (recordHit (sweepAll now retentionMs tbl) customer_name now)
    | none =>
      match protoLengthGeOne customer_name with
      | some true =>
        .decision (.denied .IDENTITY_COOLDOWN) (sweepAll now retentionMs tbl)
      | some false => .typeErrorAtPush
      | none =>
        .decision .admitted
          (recordHit (sweepAll now retentionMs tbl) customer_name now)

/-- The per-key prune-and-count operation `countRecent` of spec section 4.1,
realized in the source by the same filter as line 55 applied to the one key:
it prunes the stored sequence of `k` to `horizon` and returns the remaining
count together with the updated table.  A key with no entry counts 0 and the
table is unchanged. -/
def countRecent (tbl : HitTable) (k : String) (now horizon : Millis) :
    Nat × HitTable :=
  match tbl.lookup k with
  | none => (0, tbl)
  | some ts =>
    ((pruneList now horizon ts).length,
     tbl.map (fun p => (p.1, if p.1 == k then pruneList now horizon p.2 else p.2)))

/-- `timeRestrictionMiddleware` of src/index.js lines 81-95, as a function of
the local day of week (`getDay()`: Sunday 0 .. Saturday 6) and local hour
(`getHours()`): deny on Monday (day 1), deny when `hours >= 8 && hours < 12`,
otherwise admit. -/
def timeRestrictionMiddleware (dayOfWeek hours : Nat) : Decision :=
  if dayOfWeek = 1 then .denied .BLACKOUT_DAY
  else if 8 ≤ hours ∧ hours < 12 then .denied .BLACKOUT_HOURS
  else .admitted

/-- Verification outcomes of `jwt.verify` as the spec's 4.3 names them:
`EXPIRED` for a credential past its `expiresAt`, `INVALID_SIGNATURE` when the
signature does not match the one recomputed with the given secret. -/
inductive VerifyError where
  | EXPIRED
  | INVALID_SIGNATURE
  deriving DecidableEq, Repr

/-- The claims payload of a credential per spec section 3:
`{ subject, issuedAt, expiresAt }`.  In the source the subject is the
`userId` field of the JWT payload and `expiresAt` comes from `expiresIn`. -/
structure Claims where
  subject : String
  issuedAt : Millis
  expiresAt : Millis
  deriving DecidableEq, Repr

/-- A signed credential.  Modelled from the spec: the HMAC signature produced
by the `jsonwebtoken` library (not part of this repository) is idealized
symbolically as the pair of the signed claims and the signing secret, so the
recomputed signature matches exactly when both the claims and the secret
match — which captures the spec's requirements that signing is deterministic
and that a tamper of any claim field, or a different secret, invalidates it. -/
structure Token where
  claims : Claims
  sig : Claims × String
  deriving DecidableEq, Repr

/-- Modelled from the spec: `jwt.sign(payload, secret, { expiresIn })` of the
`jsonwebtoken` library, as called at src/index.js lines 30-31 — it stamps
`issuedAt = now`, `expiresAt = now + ttlMs` and signs the claims with
`secret`. -/
def jwtSign (secret : String) (subject : String) (now ttlMs : Millis) : Token :=
  { claims := ⟨subject, now, now + ttlMs⟩
    sig := (⟨subject, now, now + ttlMs⟩, secret) }

/-- Modelled from the spec: `jwt.verify(token, secret, cb)` of the
`jsonwebtoken` library, as called at src/index.js lines 40 and 141 — it fails
with `INVALID_SIGNATURE` when the signature does not match the recomputed
signature over the claims with `secret`, fails with `EXPIRED` when
`now > expiresAt`, and otherwise yields the subject. -/
def jwtVerify (secret : String) (tok : Token) (now : Millis) :
    Except VerifyError String :=
  if tok.sig ≠ (tok.claims, secret) then .error .INVALID_SIGNATURE
  else if tok.claims.expiresAt < now then .error .EXPIRED
  else .ok tok.claims.subject

/-- The two credential kinds of spec section 3. -/
inductive Kind where
  | access
  | refresh
  deriving DecidableEq, Repr

/-- `expiresIn: '30m'` at src/index.js line 30, in milliseconds. -/
def accessTtlMs : Millis := 30 * 60 * 1000

/-- `expiresIn: '1y'` at src/index.js line 31, in milliseconds
(the `ms` notation used by `jsonwebtoken` takes a year as 365.25 days). -/
def refreshTtlMs : Millis := 31557600000

/-- The TTL bound to a credential kind (spec: Access TTL 30 minutes,
Refresh TTL 1 year, matching lines 30-31). -/
def ttlOf : Kind → Millis
  | .access => accessTtlMs
  | .refresh => refreshTtlMs

/-- The secret bound to a credential kind: `ACCESS_TOKEN_SECRET` for Access,
`REFRESH_TOKEN_SECRET` for Refresh (src/index.js lines 30-31, 40, 141).  The
two secrets are configuration; they are passed as parameters. -/
def secretOf (accessSecret refreshSecret : String) : Kind → String
  | .access => accessSecret
  | .refresh => refreshSecret

/-- `sign(kind, subject, now)` of spec section 4.3: signing with the secret
and TTL bound to the kind. -/
def signKind (accessSecret refreshSecret : String) (kind : Kind)
    (subject : String) (now : Millis) : Token :=
  jwtSign (secretOf accessSecret refreshSecret kind) subject now (ttlOf kind)

/-- `verify(kind, token, now)` of spec section 4.3: verification against the
secret bound to the kind. -/
def verifyKind (accessSecret refreshSecret : String) (kind : Kind)
    (tok : Token) (now : Millis) : Except VerifyError String :=
  jwtVerify (secretOf accessSecret refreshSecret kind) tok now

/-- `generateTokens` of src/index.js lines 29-33: one Access and one Refresh
credential for the same subject and instant. -/
def generateTokens (accessSecret refreshSecret : String)
    (subject : String) (now : Millis) : Token × Token :=
  (signKind accessSecret refreshSecret .access subject now,
   signKind accessSecret refreshSecret .refresh subject now)

/-- The `/auth/refresh` handler of src/index.js lines 137-147 (the spec's
`rotate`): verify the presented token as a Refresh credential; on success
re-issue a full Access/Refresh pair for the recovered subject via
`generateTokens`; on failure return the verification error (the 403 branch). -/
def rotate (accessSecret refreshSecret : String) (refreshToken : Token)
    (now : Millis) : Except VerifyError (Token × Token) :=
  match verifyKind accessSecret refreshSecret .refresh refreshToken now with
  | .error e => .error e
  | .ok subject => .ok (generateTokens accessSecret refreshSecret subject now)

/-! Helper lemmas about the hit table. -/

theorem lookup_map_upd_self (f : List Millis → List Millis) (k : String)
    (tbl : HitTable) :
    (tbl.map (fun p => (p.1, if p.1 == k then f p.2 else p.2))).lookup k =
      (tbl.lookup k).map f := by
  induction tbl with
  | nil => rfl
  | cons hd rest ih =>
    obtain ⟨a, ts⟩ := hd
    by_cases he : k = a
    · subst he
      simp [List.lookup_cons]
    · have hb : (k == a) = false := beq_eq_false_iff_ne.mpr he
      simp only [List.map_cons, List.lookup_cons, hb]
      exact ih

theorem lookup_map_upd_other (f : List Millis → List Millis) (k k' : String)
    (h : k' ≠ k) (tbl : HitTable) :
    (tbl.map (fun p => (p.1, if p.1 == k then f p.2 else p.2))).lookup k' =
      tbl.lookup k' := by
  induction tbl with
  | nil => rfl
  | cons hd rest ih =>
    obtain ⟨a, ts⟩ := hd
    by_cases he : k' = a
    · subst he
      have hb : (k' == k) = false := beq_eq_false_iff_ne.mpr h
      simp [List.lookup_cons, hb, h]
    · have hb : (k' == a) = false := beq_eq_false_iff_ne.mpr he
      simp only [List.map_cons, List.lookup_cons, hb]
      exact ih

theorem lookup_append_self (tbl : HitTable) (k : String) (v : List Millis)
    (h : tbl.lookup k = none) : (tbl ++ [(k, v)]).lookup k = some v := by
  induction tbl with
  | nil => simp [List.lookup_cons]
  | cons hd rest ih =>
    obtain ⟨a, ts⟩ := hd
    rw [List.lookup_cons] at h
    cases hb : (k == a) with
    | true => rw [hb] at h; cases h
    | false =>
      rw [hb] at h
      rw [List.cons_append, List.lookup_cons, hb]
      exact ih h

theorem lookup_append_other (tbl : HitTable) (k k' : String) (v : List Millis)
    (h : (k' == k) = false) : (tbl ++ [(k, v)]).lookup k' = tbl.lookup k' := by
  induction tbl with
  | nil => simp [List.lookup_cons, h]
  | cons hd rest ih =>
    obtain ⟨a, ts⟩ := hd
    cases hb : (k' == a) <;> simp [List.lookup_cons, hb, ih]

theorem recordHit_lookup_self (tbl : HitTable) (k : String) (t : Millis) :
    (recordHit tbl k t).lookup k = some ((tbl.lookup k).getD [] ++ [t]) := by
  unfold recordHit
  by_cases hs : (tbl.lookup k).isSome
  · rw [if_pos hs, lookup_map_upd_self (fun ts => ts ++ [t]) k tbl]
    obtain ⟨ts, h⟩ := Option.isSome_iff_exists.mp hs
    rw [h]
    rfl
  · rw [if_neg hs]
    have h : tbl.lookup k = none := Option.not_isSome_iff_eq_none.mp hs
    rw [lookup_append_self tbl k [t] h, h]
    rfl

theorem recordHit_lookup_other (tbl : HitTable) (k k' : String) (t : Millis)
    (h : k' ≠ k) : (recordHit tbl k t).lookup k' = tbl.lookup k' := by
  unfold recordHit
  by_cases hs : (tbl.lookup k).isSome
  · rw [if_pos hs, lookup_map_upd_other (fun ts => ts ++ [t]) k k' h tbl]
  · rw [if_neg hs, lookup_append_other tbl k k' [t] (beq_eq_false_iff_ne.mpr h)]

theorem mem_sweepAll (now horizon : Millis) (tbl : HitTable)
    (p : String × List Millis) (hp : p ∈ sweepAll now horizon tbl) :
    p.2 ≠ [] ∧ ∀ t ∈ p.2, now - t ≤ horizon := by
  induction tbl with
  | nil => cases hp
  | cons hd rest ih =>
    obtain ⟨a, ts⟩ := hd
    rw [sweepAll] at hp
    by_cases h : pruneList now horizon ts = []
    · rw [if_pos h] at hp; exact ih hp
    · rw [if_neg h] at hp
      rcases List.mem_cons.mp hp with h1 | h1
      · subst h1
        refine ⟨h, ?_⟩
        intro t ht
        rw [pruneList] at ht
        have := List.mem_filter.mp ht
        simpa using this.2
      · exact ih h1

theorem pruneList_idem (now horizon : Millis) (ts : List Millis) :
    pruneList now horizon (pruneList now horizon ts) = pruneList now horizon ts := by
  unfold pruneList
  rw [List.filter_filter]
  simp only [Bool.and_self]

/-! Helper lemmas for the branches of the rate limiter. -/

theorem rl_burst (tbl : HitTable) (c : String) (now : Millis)
    (h : 2 ≤ burstIdentityCount (sweepAll now retentionMs tbl)) :
    rateLimiterMiddleware tbl c now =
      (.denied .GLOBAL_BURST_EXCEEDED, sweepAll now retentionMs tbl) := by
  unfold rateLimiterMiddleware
  rw [if_pos h]

theorem rl_cooldown (tbl : HitTable) (c : String) (now : Millis)
    (ts : List Millis)
    (h1 : ¬ 2 ≤ burstIdentityCount (sweepAll now retentionMs tbl))
    (h2 : (sweepAll now retentionMs tbl).lookup c = some ts)
    (h3 : 1 ≤ ts.length) :
    rateLimiterMiddleware tbl c now =
      (.denied .IDENTITY_COOLDOWN, sweepAll now retentionMs tbl) := by
  unfold rateLimiterMiddleware
  rw [if_neg h1]
  split
  case _ ts' heq =>
    rw [h2] at heq
    injection heq with he
    subst he
    rw [if_pos h3]
  case _ heq =>
    rw [h2] at heq
    cases heq

theorem rl_admit_none (tbl : HitTable) (c : String) (now : Millis)
    (h1 : ¬ 2 ≤ burstIdentityCount (sweepAll now retentionMs tbl))
    (h2 : (sweepAll now retentionMs tbl).lookup c = none) :
    rateLimiterMiddleware tbl c now =
      (.admitted, recordHit (sweepAll now retentionMs tbl) c now) := by
  unfold rateLimiterMiddleware
  rw [if_neg h1]
  split
  case _ ts' heq =>
    rw [h2] at heq
    cases heq
  case _ heq => rfl

theorem rl_admit_short (tbl : HitTable) (c : String) (now : Millis)
    (ts : List Millis)
    (h1 : ¬ 2 ≤ burstIdentityCount (sweepAll now retentionMs tbl))
    (h2 : (sweepAll now retentionMs tbl).lookup c = some ts)
    (h3 : ¬ 1 ≤ ts.length) :
    rateLimiterMiddleware tbl c now =
      (.admitted, recordHit (sweepAll now retentionMs tbl) c now) := by
  unfold rateLimiterMiddleware
  rw [if_neg h1]
  split
  case _ ts' heq =>
    rw [h2] at heq
    injection heq with he
    subst he
    rw [if_neg h3]
  case _ heq =>
    simp [h2] at heq

/-! Helper lemmas for the credential signer. -/

theorem jwtVerify_jwtSign_ok (secret s : String) (t0 ttlMs now : Millis)
    (h : now ≤ t0 + ttlMs) :
    jwtVerify secret (jwtSign secret s t0 ttlMs) now = .ok s := by
  unfold jwtVerify jwtSign
  rw [if_neg (fun hc => hc rfl), if_neg (not_lt.mpr h)]

theorem jwtVerify_jwtSign_expired (secret s : String) (t0 ttlMs now : Millis)
    (h : t0 + ttlMs < now) :
    jwtVerify secret (jwtSign secret s t0 ttlMs) now = .error .EXPIRED := by
  unfold jwtVerify jwtSign
  rw [if_neg (fun hc => hc rfl), if_pos h]

theorem jwtVerify_jwtSign_wrong_secret (secret secret2 s : String)
    (hs : secret ≠ secret2) (t0 ttlMs now : Millis) :
    jwtVerify secret2 (jwtSign secret s t0 ttlMs) now =
      .error .INVALID_SIGNATURE := by
  unfold jwtVerify jwtSign
  rw [if_pos (fun hc => hs (congrArg Prod.snd hc))]

/-! The claims. -/

/-- C1: the claim states that with one recorded hit for an identity at `t0`,
an admission check at `t0 + 119s` is denied with `IDENTITY_COOLDOWN` and one at
`t0 + 121s` is admitted, the cooldown being a 2-minute window.  The source's
per-identity check (src/index.js line 66) has no 2-minute horizon: it denies
whenever the identity has any hit retained by the 5-minute sweep, even though
its own message and comment say `1 hit per 2 minutes`.  This theorem evaluates
the embedded middleware at the failing input: at `t0 + 119s` the check is
denied as claimed, but at `t0 + 121s` it is still denied, and only after the
5-minute retention (here `t0 + 301s`) is it admitted. -/
theorem cooldown_is_five_minutes_not_two :
    rateLimiterMiddleware [("A", [0])] "A" 119000 =
      (.denied .IDENTITY_COOLDOWN, [("A", [0])]) ∧
    rateLimiterMiddleware [("A", [0])] "A" 121000 =
      (.denied .IDENTITY_COOLDOWN, [("A", [0])]) ∧
    rateLimiterMiddleware [("A", [0])] "A" 301000 =
      (.admitted, [("A", [301000])]) := by
  refine ⟨by decide, by decide, by decide⟩

/-- C2: after the sweep to the 5-minute horizon, if the number of distinct
identities with at least two retained hits is itself at least two, the rate
limiter denies any request with `GLOBAL_BURST_EXCEEDED`, whatever the
requesting identity is, and leaves the table at its swept state. -/
theorem global_burst_denies_all (tbl : HitTable) (cname : String) (now : Millis)
    (h : 2 ≤ burstIdentityCount (sweepAll now retentionMs tbl)) :
    rateLimiterMiddleware tbl cname now =
      (.denied .GLOBAL_BURST_EXCEEDED, sweepAll now retentionMs tbl) :=
  rl_burst tbl cname now h

/-- Witness for C2: identities `A` and `B` each recorded twice within the
5-minute window, and a third identity `C` making its first request in that
window is denied with `GLOBAL_BURST_EXCEEDED`. -/
theorem global_burst_denies_all_witness :
    rateLimiterMiddleware [("A", [0, 1]), ("B", [0, 1])] "C" 1000 =
      (.denied .GLOBAL_BURST_EXCEEDED,
        sweepAll 1000 retentionMs [("A", [0, 1]), ("B", [0, 1])]) :=
  global_burst_denies_all [("A", [0, 1]), ("B", [0, 1])] "C" 1000 (by decide)

/-- C3: for every pair of distinct secrets, subject and instant, verifying a
credential signed for a kind with that same kind at `t0 + 10s` recovers the
subject; verifying it at `t0 + ttl(kind) + 1s` fails with `EXPIRED`; and
verifying an Access-signed credential against the Refresh secret, or a
Refresh-signed credential against the Access secret, fails with
`INVALID_SIGNATURE`. -/
theorem credential_roundtrip_and_kind_separation
    (aS rS : String) (hd : aS ≠ rS) (s : String) (t0 : Millis) (kind : Kind) :
    verifyKind aS rS kind (signKind aS rS kind s t0) (t0 + 10000) = .ok s ∧
    verifyKind aS rS kind (signKind aS rS kind s t0) (t0 + ttlOf kind + 1000) =
      .error .EXPIRED ∧
    verifyKind aS rS .refresh (signKind aS rS .access s t0) (t0 + 10000) =
      .error .INVALID_SIGNATURE ∧
    verifyKind aS rS .access (signKind aS rS .refresh s t0) (t0 + 10000) =
      .error .INVALID_SIGNATURE := by
  have htt : (10000 : Millis) ≤ ttlOf kind := by cases kind <;> decide
  refine ⟨?_, ?_, ?_, ?_⟩
  · exact jwtVerify_jwtSign_ok (secretOf aS rS kind) s t0 (ttlOf kind)
      (t0 + 10000) (add_le_add_left htt t0)
  · exact jwtVerify_jwtSign_expired (secretOf aS rS kind) s t0 (ttlOf kind)
      (t0 + ttlOf kind + 1000) (lt_add_of_pos_right _ (by decide))
  · exact jwtVerify_jwtSign_wrong_secret aS rS s hd t0 accessTtlMs (t0 + 10000)
  · exact jwtVerify_jwtSign_wrong_secret rS aS s (fun h => hd h.symm) t0
      refreshTtlMs (t0 + 10000)

/-- Witness for C3 at the Access kind, subject `user-1`, `t0 = 0` and the
distinct secrets `s1`, `s2`. -/
theorem credential_roundtrip_witness :
    verifyKind "s1" "s2" .access (signKind "s1" "s2" .access "user-1" 0)
      (0 + 10000) = .ok "user-1" ∧
    verifyKind "s1" "s2" .access (signKind "s1" "s2" .access "user-1" 0)
      (0 + ttlOf .access + 1000) = .error .EXPIRED ∧
    verifyKind "s1" "s2" .refresh (signKind "s1" "s2" .access "user-1" 0)
      (0 + 10000) = .error .INVALID_SIGNATURE ∧
    verifyKind "s1" "s2" .access (signKind "s1" "s2" .refresh "user-1" 0)
      (0 + 10000) = .error .INVALID_SIGNATURE :=
  credential_roundtrip_and_kind_separation "s1" "s2" (by decide) "user-1" 0 .access

/-- C4: whenever the presented token verifies as a Refresh credential for a
subject `s`, `rotate` returns a full Access/Refresh pair issued by
`generateTokens`, both bound to `s`, with the new Refresh credential expiring
strictly after `now`; whenever verification fails, `rotate` returns that very
`VerifyError` and issues nothing. -/
theorem rotate_preserves_subject_and_propagates_failure
    (aS rS : String) (tok : Token) (now : Millis) :
    (∀ s, verifyKind aS rS .refresh tok now = .ok s →
      rotate aS rS tok now = .ok (generateTokens aS rS s now) ∧
      (generateTokens aS rS s now).1.claims.subject = s ∧
      (generateTokens aS rS s now).2.claims.subject = s ∧
      now < (generateTokens aS rS s now).2.claims.expiresAt) ∧
    (∀ e, verifyKind aS rS .refresh tok now = .error e →
      rotate aS rS tok now = .error e) := by
  constructor
  · intro s h
    refine ⟨?_, rfl, rfl, ?_⟩
    · unfold rotate
      rw [h]
    · show now < now + refreshTtlMs
      exact lt_add_of_pos_right now (by decide)
  · intro e h
    unfold rotate
    rw [h]

/-- Witness for C4: rotating a valid Refresh credential for `user-1` at
`now = 10000` re-issues a pair bound to `user-1` whose Refresh credential
expires after `now`. -/
theorem rotate_witness :
    rotate "s1" "s2" (signKind "s1" "s2" .refresh "user-1" 0) 10000 =
      .ok (generateTokens "s1" "s2" "user-1" 10000) ∧
    (generateTokens "s1" "s2" "user-1" 10000).2.claims.subject = "user-1" ∧
    (10000 : Millis) <
      (generateTokens "s1" "s2" "user-1" 10000).2.claims.expiresAt := by
  have h := (rotate_preserves_subject_and_propagates_failure "s1" "s2"
    (signKind "s1" "s2" .refresh "user-1" 0) 10000).1 "user-1" (by rfl)
  exact ⟨h.1, h.2.2.1, h.2.2.2⟩

/-- C5: for every key and stored timestamp sequence, `countRecent` returns the
count of the timestamps `t` with `now - t ≤ horizon` and leaves in the stored
sequence exactly those timestamps (never one older than the horizon); and after
`sweepAll` every remaining timestamp satisfies `now - t ≤ horizon` while every
key whose sequence became empty is gone from the table. -/
theorem window_correctness_and_retention (tbl : HitTable) (k : String)
    (now horizon : Millis) :
    ((countRecent tbl k now horizon).1 =
      (((tbl.lookup k).getD []).filter
        (fun t => decide (now - t ≤ horizon))).length) ∧
    ((countRecent tbl k now horizon).2.lookup k =
        some (pruneList now horizon ((tbl.lookup k).getD [])) ∨
      (tbl.lookup k = none ∧ (countRecent tbl k now horizon).2 = tbl)) ∧
    (∀ t, t ∈ pruneList now horizon ((tbl.lookup k).getD []) ↔
      (t ∈ (tbl.lookup k).getD [] ∧ now - t ≤ horizon)) ∧
    (∀ p, p ∈ sweepAll now horizon tbl →
      p.2 ≠ [] ∧ ∀ t ∈ p.2, now - t ≤ horizon) := by
  refine ⟨?_, ?_, ?_, fun p hp => mem_sweepAll now horizon tbl p hp⟩
  · cases h : tbl.lookup k with
    | none =>
      unfold countRecent
      rw [h]
      rfl
    | some ts =>
      unfold countRecent
      rw [h]
      rfl
  · cases h : tbl.lookup k with
    | none =>
      refine Or.inr ⟨rfl, ?_⟩
      unfold countRecent
      rw [h]
    | some ts =>
      refine Or.inl ?_
      unfold countRecent
      rw [h]
      show (tbl.map
        (fun p => (p.1, if p.1 == k then pruneList now horizon p.2 else p.2))).lookup k = _
      rw [lookup_map_upd_self (pruneList now horizon) k tbl, h]
      rfl
  · intro t
    simp [pruneList, List.mem_filter]

/-- Witness for C5 with one key `A` holding the timestamps 0 and 200000,
`now = 400000` and a 5-minute horizon: the count is 1, the retained timestamp
200000 is within the horizon, and the key's swept sequence is non-empty. -/
theorem window_correctness_witness :
    (countRecent [("A", [0, 200000])] "A" 400000 300000).1 = 1 ∧
    (200000 : Millis) ∈ pruneList 400000 300000
      ((([("A", [0, 200000])] : HitTable).lookup "A").getD []) ∧
    (("A", [200000]) : String × List Millis).2 ≠ [] := by
  have h := window_correctness_and_retention [("A", [0, 200000])] "A" 400000 300000
  refine ⟨?_, ?_, ?_⟩
  · rw [h.1]
    decide
  · exact (h.2.2.1 200000).mpr ⟨by decide, by decide⟩
  · exact (h.2.2.2 ("A", [200000]) (by decide)).1

/-- C6: a request evaluated by the time-restriction policy on the blackout day
(Monday, day 1 of a Sunday-start week) is denied with `BLACKOUT_DAY` whatever
the hour; at an hour in `[8,12)` of a non-blackout day it is denied with
`BLACKOUT_HOURS`; and at hour 15 of a non-blackout day it is admitted. -/
theorem time_blackout_semantics (dayOfWeek hours : Nat) :
    (dayOfWeek = 1 →
      timeRestrictionMiddleware dayOfWeek hours = .denied .BLACKOUT_DAY) ∧
    (dayOfWeek ≠ 1 → 8 ≤ hours → hours < 12 →
      timeRestrictionMiddleware dayOfWeek hours = .denied .BLACKOUT_HOURS) ∧
    (dayOfWeek ≠ 1 → timeRestrictionMiddleware dayOfWeek 15 = .admitted) := by
  refine ⟨?_, ?_, ?_⟩
  · intro h
    unfold timeRestrictionMiddleware
    rw [if_pos h]
  · intro h h8 h12
    unfold timeRestrictionMiddleware
    rw [if_neg h, if_pos ⟨h8, h12⟩]
  · intro h
    unfold timeRestrictionMiddleware
    rw [if_neg h, if_neg (by omega)]

/-- Witness for C6: Monday at hour 15 is denied with `BLACKOUT_DAY`, Tuesday
at hour 9 is denied with `BLACKOUT_HOURS`, Tuesday at hour 15 is admitted. -/
theorem time_blackout_witness :
    timeRestrictionMiddleware 1 15 = .denied .BLACKOUT_DAY ∧
    timeRestrictionMiddleware 2 9 = .denied .BLACKOUT_HOURS ∧
    timeRestrictionMiddleware 2 15 = .admitted :=
  ⟨(time_blackout_semantics 1 15).1 rfl,
   (time_blackout_semantics 2 9).2.1 (by decide) (by decide) (by decide),
   (time_blackout_semantics 2 15).2.2 (by decide)⟩

/-- C7: whenever the rate limiter denies, the resulting hit table is exactly
the swept table — no timestamp is recorded; whenever it admits, the requesting
identity's sequence is the swept one with the single timestamp `now` appended,
and every other key reads exactly as in the swept table. -/
theorem decision_frame_effect (tbl : HitTable) (cname : String) (now : Millis) :
    (∀ r, (rateLimiterMiddleware tbl cname now).1 = .denied r →
      (rateLimiterMiddleware tbl cname now).2 = sweepAll now retentionMs tbl) ∧
    ((rateLimiterMiddleware tbl cname now).1 = .admitted →
      (rateLimiterMiddleware tbl cname now).2.lookup cname =
        some ((((sweepAll now retentionMs tbl).lookup cname).getD []) ++ [now]) ∧
      ∀ k, k ≠ cname → (rateLimiterMiddleware tbl cname now).2.lookup k =
        (sweepAll now retentionMs tbl).lookup k) := by
  by_cases h1 : 2 ≤ burstIdentityCount (sweepAll now retentionMs tbl)
  · rw [rl_burst tbl cname now h1]
    exact ⟨fun r _ => rfl, fun hadm => by simp at hadm⟩
  · cases h2 : (sweepAll now retentionMs tbl).lookup cname with
    | some ts =>
      by_cases h3 : 1 ≤ ts.length
      · rw [rl_cooldown tbl cname now ts h1 h2 h3]
        exact ⟨fun r _ => rfl, fun hadm => by simp at hadm⟩
      · rw [rl_admit_short tbl cname now ts h1 h2 h3]
        refine ⟨fun r hr => by simp at hr, fun _ => ⟨?_, ?_⟩⟩
        · rw [recordHit_lookup_self (sweepAll now retentionMs tbl) cname now, h2]
        · intro k hk
          exact recordHit_lookup_other (sweepAll now retentionMs tbl) cname k now hk
    | none =>
      rw [rl_admit_none tbl cname now h1 h2]
      refine ⟨fun r hr => by simp at hr, fun _ => ⟨?_, ?_⟩⟩
      · rw [recordHit_lookup_self (sweepAll now retentionMs tbl) cname now, h2]
      · intro k hk
        exact recordHit_lookup_other (sweepAll now retentionMs tbl) cname k now hk

/-- Witness for C7: a denied check (identity `A` in cooldown) leaves the table
at its swept state, and an admitted check (fresh identity `B` on an empty
table) stores exactly the timestamp of the evaluation instant under `B`. -/
theorem decision_frame_effect_witness :
    (rateLimiterMiddleware [("A", [0])] "A" 1000).2 =
      sweepAll 1000 retentionMs [("A", [0])] ∧
    (rateLimiterMiddleware [] "B" 5).2.lookup "B" = some [5] := by
  have h1 := (decision_frame_effect [("A", [0])] "A" 1000).1
    .IDENTITY_COOLDOWN (by decide)
  have h2 := (decision_frame_effect [] "B" 5).2 (by decide)
  refine ⟨h1, ?_⟩
  rw [h2.1]
  rfl

/-- C8: for a degenerate tracking key — the empty string, or the string
`undefined` that JavaScript property access makes of an absent
`customer_name` — the rate limiter is still fully evaluated: the global-burst
check denies it, the cooldown check applies to hits stored under that key, and
on admission a hit is recorded under that very key; the policy is never
skipped. -/
theorem degenerate_identity_still_limited (k : String)
    (_hk : k = "" ∨ k = "undefined") (tbl : HitTable) (now : Millis) :
    (2 ≤ burstIdentityCount (sweepAll now retentionMs tbl) →
      rateLimiterMiddleware tbl k now =
        (.denied .GLOBAL_BURST_EXCEEDED, sweepAll now retentionMs tbl)) ∧
    (¬ 2 ≤ burstIdentityCount (sweepAll now retentionMs tbl) →
      ∀ ts, (sweepAll now retentionMs tbl).lookup k = some ts → 1 ≤ ts.length →
        rateLimiterMiddleware tbl k now =
          (.denied .IDENTITY_COOLDOWN, sweepAll now retentionMs tbl)) ∧
    (¬ 2 ≤ burstIdentityCount (sweepAll now retentionMs tbl) →
      (sweepAll now retentionMs tbl).lookup k = none →
        rateLimiterMiddleware tbl k now =
          (.admitted, recordHit (sweepAll now retentionMs tbl) k now) ∧
        (recordHit (sweepAll now retentionMs tbl) k now).lookup k =
          some (((sweepAll now retentionMs tbl).lookup k).getD [] ++ [now])) :=
  ⟨fun h => rl_burst tbl k now h,
   fun h1 ts h2 h3 => rl_cooldown tbl k now ts h1 h2 h3,
   fun h1 h2 => ⟨rl_admit_none tbl k now h1 h2,
     recordHit_lookup_self (sweepAll now retentionMs tbl) k now⟩⟩

/-- Witness for C8: on an empty table the empty-string identity is admitted
and its hit is recorded under the empty-string key. -/
theorem degenerate_identity_witness :
    rateLimiterMiddleware [] "" 0 =
      (.admitted, recordHit (sweepAll 0 retentionMs []) "" 0) ∧
    (recordHit (sweepAll 0 retentionMs []) "" 0).lookup "" =
      some (((sweepAll 0 retentionMs []).lookup "").getD [] ++ [0]) :=
  (degenerate_identity_still_limited "" (Or.inl rfl) [] 0).2.2
    (by decide) (by decide)

/-- C9: the claim states that admission evaluation terminates without raising
and returns exactly one decision for every input.  The source does raise:
`hitTracker` at src/index.js line 48 is a plain object inheriting
`Object.prototype`, and `customer_name` comes from the request body.  This
theorem evaluates the prototype-faithful embedding: for `customer_name`
equal to `toString` on an empty table, line 66's truthiness-and-length test
passes over the inherited function (arity 0), line 71 skips the array
creation because the inherited value is truthy, and line 74's
`hitTracker[customer_name].push(now)` throws a TypeError that escapes the
middleware; for `hasOwnProperty` (arity 1) the middleware denies with the
cooldown message although no hit is stored; an ordinary identity such as
`A` is admitted and recorded as usual. -/
theorem admission_can_raise_typeError :
    rateLimiterMiddlewareJS [] "toString" 0 = .typeErrorAtPush ∧
    rateLimiterMiddlewareJS [] "valueOf" 0 = .typeErrorAtPush ∧
    rateLimiterMiddlewareJS [] "hasOwnProperty" 0 =
      .decision (.denied .IDENTITY_COOLDOWN) [] ∧
    rateLimiterMiddlewareJS [] "A" 0 = .decision .admitted [("A", [0])] := by
  refine ⟨by decide, by decide, by decide, by decide⟩

/-- C10: one sweep settles the table: applying `sweepAll` twice with the same
instant and horizon yields the same hit-table state as applying it once. -/
theorem sweepAll_idempotent (now horizon : Millis) (tbl : HitTable) :
    sweepAll now horizon (sweepAll now horizon tbl) = sweepAll now horizon tbl := by
  induction tbl with
  | nil => rfl
  | cons hd rest ih =>
    obtain ⟨a, ts⟩ := hd
    by_cases h : pruneList now horizon ts = []
    · simp only [sweepAll, if_pos h]
      exact ih
    · simp only [sweepAll, if_neg h, pruneList_idem, ih]

end NodeAdvance
